import Mathlib

/-!
Verification of the query execution and result-normalization pipeline of
gcamreader (src/gcamreader/querymi.py).

The embedding below translates the relevant Python functions into Lean:

* `_querylist` (querymi.py lines 81-91): formatting of scenario/region lists
  into the engine list-literal syntax.  Its Python argument can be `None`,
  a `str`, or a list of strings; the type `PyList` mirrors that domain.
* `_parserslt` (lines 94-122): CSV normalization.  The pandas calls it makes
  (`read_csv`, `columns.str.contains`, `Index.drop`, `groupby(...).sum()`)
  are modelled explicitly, including the exceptions they raise
  (`EmptyDataError` on empty input, `KeyError` from `Index.drop` when the
  exact label is missing, `ValueError` from `groupby([])`), and the fact
  that line 118 references the undefined name `query` (a Python `NameError`)
  in the `warn_empty` branch.  Emitted stderr text is modelled as a list of
  the strings written before the function returns or raises.
* `_runmi` (lines 125-159): subprocess execution.  The child process result
  is an explicit input (`ProcResult`); `subprocess.CalledProcessError` is the
  structure `CalledProcessError` with the fields the Python exception carries.
* `LocalDBConn.runQuery` (lines 213-278): command building, the engine script
  text written to the scoped temporary file, and the try/finally removal of
  that file, modelled by threading an explicit file-exists flag.
* `RemoteDBConn.runQuery` (lines 363-422): the REST request body.
* `listScenariosInDB` post-processing (lines 306-312, 459-466): appending the
  derived `fqName` column.

Numeric cells are modelled as integers (the engine emits integer values in
all inputs considered here); floating point is outside the embedding.
-/

/-- Domain of the Python argument accepted by `_querylist` and by the
`scenarios`/`regions` parameters of `runQuery`: `None`, a bare string, or a
list of strings. -/
inductive PyList where
  | pynone : PyList
  | pystr (s : String) : PyList
  | pylist (l : List String) : PyList
deriving DecidableEq, Repr

/-- querymi.py lines 81-91: convert region and scenario lists to strings in
the format `(\x27item1\x27,\x27item2\x27,...,\x27itemN\x27)`.  `None` or an
empty value gives `()`; a bare string is promoted to a one-element list. -/
def _querylist : PyList → String
  | .pynone => "()"
  | .pystr s => if s.length = 0 then "()" else "(\x27" ++ s ++ "\x27)"
  | .pylist l =>
      if l.length = 0 then "()"
      else "(\x27" ++ String.intercalate "\x27,\x27" l ++ "\x27)"

/-- A parsed CSV cell: pandas `read_csv` type inference, restricted to
integer literals versus plain strings (the engine emits integers for the
`value` and `Year` columns and strings elsewhere). -/
inductive Cell where
  | str (s : String) : Cell
  | int (n : Int) : Cell
deriving DecidableEq, Repr, Inhabited

/-- A parsed data frame: column names plus rows of cells (the shape pandas
`read_csv` returns for the CSV text the engine emits). -/
structure Frame where
  cols : List String
  rows : List (List Cell)
deriving DecidableEq, Repr

/-- Split a character list at every occurrence of the separator character
(structural model of line/field splitting done by pandas `read_csv`). -/
def splitOnChar (c : Char) : List Char → List (List Char)
  | [] => [[]]
  | a :: as =>
    match splitOnChar c as with
    | [] => [[a]]
    | h :: t => if a = c then [] :: h :: t else (a :: h) :: t

/-- `leadsWith pat l` is true when `pat` is an initial segment of `l`. -/
def leadsWith : List Char → List Char → Bool
  | [], _ => true
  | _ :: _, [] => false
  | p :: ps, a :: as => p = a && leadsWith ps as

/-- `hasSubList pat l` is true when `pat` occurs contiguously in `l`. -/
def hasSubList (pat : List Char) : List Char → Bool
  | [] => leadsWith pat []
  | a :: as => leadsWith pat (a :: as) || hasSubList pat as

/-- Substring test on strings: model of pandas `Series.str.contains` with the
plain pattern `"value"` (no regex metacharacters, hence a substring match). -/
def containsSub (s pat : String) : Bool := hasSubList pat.data s.data

/-- Accumulate decimal digits; any non-digit character rejects the parse. -/
def natOfDigitsAux (acc : Nat) : List Char → Option Nat
  | [] => some acc
  | c :: cs =>
      if c.isDigit then natOfDigitsAux (acc * 10 + (c.toNat - 48)) cs
      else none

/-- Parse a non-empty all-digit character list as a natural number. -/
def natOfDigits : List Char → Option Nat
  | [] => none
  | c :: cs => natOfDigitsAux 0 (c :: cs)

/-- Parse one CSV field the way pandas type inference does on the inputs in
scope: an integer literal (optionally negative) becomes a numeric cell,
anything else stays a string cell. -/
def parseCell (cs : List Char) : Cell :=
  match cs with
  | '-' :: rest =>
      match natOfDigits rest with
      | some n => .int (-(n : Int))
      | none => .str (String.mk cs)
  | _ =>
      match natOfDigits cs with
      | some n => .int (n : Int)
      | none => .str (String.mk cs)

/-- Model of `pandas.read_csv` on engine output: split into non-empty lines,
the first line being the header and the rest data rows; an input with no
non-empty line raises `EmptyDataError`, modelled as `none`. -/
def parseCSV (txt : String) : Option Frame :=
  match (splitOnChar '\n' txt.data).filter (· ≠ []) with
  | [] => none
  | header :: body =>
      some { cols := (splitOnChar ',' header).map String.mk,
             rows := body.map (fun ln => (splitOnChar ',' ln).map parseCell) }

/-- Keep the first occurrence of each element, dropping elements already in
`seen`. -/
def dedupFirstAux {α : Type} [DecidableEq α] (seen : List α) : List α → List α
  | [] => []
  | k :: ks =>
      if k ∈ seen then dedupFirstAux seen ks
      else k :: dedupFirstAux (k :: seen) ks

/-- Distinct elements of a list, in order of first occurrence. -/
def dedupFirst {α : Type} [DecidableEq α] (l : List α) : List α :=
  dedupFirstAux [] l

/-- The integer content of a cell (`value` cells are numeric on all inputs
in scope). -/
def cellInt : Cell → Int
  | .str _ => 0
  | .int n => n

/-- Sum of the `value` cells (column index `vi`) over the rows whose
remaining cells equal the composite key `k`. -/
def sumVals (vi : Nat) (k : List Cell) (rows : List (List Cell)) : Int :=
  ((rows.filter (fun r => r.eraseIdx vi = k)).map
    (fun r => cellInt (r.getD vi default))).sum

/-- querymi.py line 114: `rslt.groupby(cols.drop("value").to_list(),
as_index=False).sum()`.  The key columns are the columns other than `value`;
each distinct composite key yields one row carrying the sum of `value` over
its group, and the `value` column moves to the last position, as pandas does.
Group order is the grouping-library policy, which the specification leaves
implementation-defined; the model uses order of first occurrence, and the
claims proved below do not depend on the order of distinct groups. -/
def groupAgg (f : Frame) : Frame :=
  let vi := f.cols.indexOf "value"
  let keyCols := f.cols.eraseIdx vi
  let keys := dedupFirst (f.rows.map (fun r => r.eraseIdx vi))
  { cols := keyCols ++ ["value"],
    rows := keys.map (fun k => k ++ [Cell.int (sumVals vi k f.rows)]) }

deriving instance DecidableEq for Except

/-- Python exceptions that can escape `_parserslt`: `KeyError` from
`Index.drop` when the exact label `value` is absent, `NameError` from the
undefined name `query` at line 118, and `ValueError` from `groupby` when
the key-column list is empty. -/
inductive PyError where
  | keyError : PyError
  | nameError : PyError
  | valueError : PyError
deriving DecidableEq, Repr

/-- querymi.py lines 94-122 (`_parserslt`): parse the model-interface output
into a frame.  Result: either a raised exception or the optional frame,
paired with the list of strings written to stderr before returning/raising.
The branch structure mirrors the source: `read_csv` (EmptyDataError caught,
returning `None`, with the `warn_empty` branch raising `NameError` after its
first write because line 118 references the undefined name `query`); then
the substring guard `cols.str.contains("value").any()`; inside it
`cols.drop("value")` (KeyError when no exact `value` label exists) and
`groupby(...)` (ValueError when the key-column list is empty). -/
def _parserslt (txt : String) (warnEmpty : Bool) (title stderrTxt : String) :
    Except PyError (Option Frame) × List String :=
  match parseCSV txt with
  | none =>
      if warnEmpty then
        (.error .nameError, ["Model interface returned empty string.\n"])
      else
        (.ok none, [])
  | some f =>
      if f.cols.any (fun c => containsSub c "value") then
        if "value" ∈ f.cols then
          if f.cols.eraseIdx (f.cols.indexOf "value") = [] then
            (.error .valueError, [])
          else
            (.ok (some (groupAgg f)), [])
        else
          (.error .keyError, [])
      else
        (.ok (some f), [])

/-- Outcome of the child process launched by `_runmi`: exit status and the
fully captured standard output and standard error.  The process behaviour is
an explicit input of the embedding. -/
structure ProcResult where
  exitCode : Nat
  stdout : String
  stderr : String
deriving DecidableEq, Repr

/-- The `subprocess.CalledProcessError` raised by `subprocess.run(...,
check=True)`: it carries the return code, the command list, the captured
standard output and the captured standard error - and nothing else. -/
structure CalledProcessError where
  returncode : Nat
  cmd : List String
  output : String
  stderrData : String
deriving DecidableEq, Repr

/-- querymi.py lines 125-159 (`_runmi`, python >= 3.5 branch): run the model
interface command.  On exit code zero, return the captured stdout and stderr
with nothing written to stderr.  On a non-zero exit code,
`subprocess.CalledProcessError` is raised; the handler writes a diagnostic
block (command line, the query string passed by the caller, the captured
stderr) and re-raises the same exception.  Result: the value or the raised
error, paired with the strings written to the error stream. -/
def _runmi (cmd : List String) (querystr : String) (proc : ProcResult) :
    Except CalledProcessError (String × String) × List String :=
  if proc.exitCode = 0 then
    (.ok (proc.stdout, proc.stderr), [])
  else
    (.error { returncode := proc.exitCode, cmd := cmd,
              output := proc.stdout, stderrData := proc.stderr },
     ["Model interface run failed.\n",
      "Command line: \n\t" ++ String.intercalate " " cmd ++ "\n",
      "Query string: \n\t" ++ querystr ++ "\n",
      "Model interface stderr output:\n",
      proc.stderr])

/-- The `Query` structure (querymi.py lines 23-51): the serialized query body
(`querystr`), the title, and the region list parsed from the XML
(`None` when the definition has no `region` elements). -/
structure Query where
  querystr : String
  title : String
  regions : Option (List String)
deriving DecidableEq, Repr

/-- Configuration of `LocalDBConn` (querymi.py lines 172-199). -/
structure LocalDBConn where
  dbpath : String
  dbfile : String
  miclasspath : String
  maxMemory : String
  suppressGabble : Bool
deriving DecidableEq, Repr

/-- View the parsed `Query.regions` attribute (either `None` or a list) as a
`_querylist` argument. -/
def optToPyList : Option (List String) → PyList
  | none => .pynone
  | some l => .pylist l

/-- querymi.py lines 237-238 and 387-388: `if regions is None: regions =
query.regions`.  A `None` regions argument falls back to the region filter
of the query; any other argument (including an explicit empty list) is kept
as passed. -/
def effectiveRegions (queryRegions : Option (List String)) : PyList → PyList
  | .pynone => optToPyList queryRegions
  | r => r

/-- The region literal formatted into the invocation, as computed at both
`runQuery` call sites (lines 237-239 and 387-389): the override rule
followed by `_querylist`. -/
def formatRegions (queryRegions : Option (List String)) (regions : PyList) :
    String :=
  _querylist (effectiveRegions queryRegions regions)

/-- querymi.py line 245: `re.sub("\n", "", query.querystr)` removes every
newline character. -/
def stripNL (s : String) : String :=
  String.mk (s.data.filter (· ≠ '\n'))

/-- querymi.py line 269: the engine script text written to the temporary
file by `LocalDBConn.runQuery`. -/
def buildLocalScript (query : Query) (scenarios regions : PyList) : String :=
  let xqscen := _querylist scenarios
  let xqrgn := formatRegions query.regions regions
  "import module namespace mi = \x27ModelInterface.ModelGUI2.xmldb.RunMIQuery\x27;"
    ++ "mi:runMIQuery(" ++ stripNL query.querystr ++ "," ++ xqscen ++ ","
    ++ xqrgn ++ ")"

/-- querymi.py lines 256-267: the java command list built by
`LocalDBConn.runQuery`; `tmpName` is the name of the scoped temporary file
(`str(True)`/`str(False)` renders the suppress flag). -/
def buildCmd (conn : LocalDBConn) (tmpName : String) : List String :=
  [ "java",
    "-cp", conn.miclasspath,
    "-Xmx" ++ conn.maxMemory,
    "-Dorg.basex.DBPATH=" ++ conn.dbpath,
    "-DModelInterface.SUPPRESS_OUTPUT="
      ++ (if conn.suppressGabble then "True" else "False"),
    "org.basex.BaseX",
    "-smethod=csv",
    "-scsv=header=yes,format=xquery",
    "-i", conn.dbfile,
    "RUN", tmpName ]

/-- Replace every non-overlapping occurrence of `pat` by `rep`, scanning
left to right and never rescanning the replacement: the semantics of the
Python `str.replace` call at querymi.py line 396. -/
def replaceSub (pat rep : List Char) : List Char → List Char
  | [] => []
  | a :: as =>
      if pat ≠ [] ∧ leadsWith pat (a :: as) then
        rep ++ replaceSub pat rep (as.drop (pat.length - 1))
      else
        a :: replaceSub pat rep as
termination_by l => l.length
decreasing_by
  · simp only [List.length_cons]
    have := List.length_drop (pat.length - 1) as
    omega
  · simp [List.length_cons]

/-- querymi.py lines 391-407: the REST request body built by
`RemoteDBConn.runQuery` - the script text (query body plus formatted
scenario and region literals) inside a CDATA block, with any embedded CDATA
terminator split so the remote parser does not end the block early. -/
def buildRemoteBody (query : Query) (scenarios regions : PyList) : String :=
  let xqscen := _querylist scenarios
  let xqrgn := formatRegions query.regions regions
  let javastr :=
    "import module namespace mi = \x27ModelInterface.ModelGUI2.xmldb.RunMIQuery\x27;"
      ++ "mi:runMIQuery(" ++ query.querystr ++ ", " ++ xqscen ++ ", "
      ++ xqrgn ++ ")"
  let javastr :=
    String.mk (replaceSub "]]>".data "]]]]><![CDATA[>".data javastr.data)
  String.intercalate " "
    [ "<rest:query xmlns:rest=\x22http://basex.org/rest\x22>",
      "<rest:text><![CDATA[",
      javastr,
      "]]></rest:text>",
      "<rest:parameter name=\x22method\x22 value=\x22csv\x22/>",
      "<rest:parameter name=\x22media-type\x22 value=\x22text/csv\x22/>",
      "<rest:parameter name=\x22csv\x22 value=\x22header=yes,format=xquery\x22/>",
      "</rest:query>" ]

/-- A failure escaping `LocalDBConn.runQuery`: either the re-raised
`CalledProcessError` from `_runmi` or an exception from `_parserslt`. -/
inductive RunError where
  | engine (e : CalledProcessError) : RunError
  | py (e : PyError) : RunError
deriving DecidableEq, Repr

/-- The `try` body of `LocalDBConn.runQuery` (querymi.py lines 255-274):
build the command, write the script to the temporary file, run the model
interface (its failure propagates), and parse the result (its failure
propagates).  Result paired with everything written to stderr. -/
def localRunQueryBody (conn : LocalDBConn) (query : Query)
    (warnEmpty : Bool) (tmpName : String) (proc : ProcResult) :
    Except RunError (Option Frame) × List String :=
  let cmd := buildCmd conn tmpName
  match _runmi cmd query.querystr proc with
  | (.error e, milog) => (.error (.engine e), milog)
  | (.ok (miout, mierr), milog) =>
      match _parserslt miout warnEmpty query.title mierr with
      | (.error e, plog) => (.error (.py e), milog ++ plog)
      | (.ok r, plog) => (.ok r, milog ++ plog)

/-- Python `try ... finally`: the body runs on the state (its exception, if
any, is the `Except` value inside `α`), and the `finally` clause transforms
the state afterwards on every exit path. -/
def pyTryFinally {α σ : Type} (body : σ → α × σ) (fin : σ → σ) (s : σ) :
    α × σ :=
  let (r, s1) := body s
  (r, fin s1)

/-- querymi.py lines 213-278 (`LocalDBConn.runQuery`), with the lifecycle of
the scoped temporary file made explicit: the state is the content of the
temporary file (`none` when the file does not exist).
`tempfile.NamedTemporaryFile(delete=False)` creates the file empty; the body
writes the engine script into it before launching the engine; the `finally`
clause (`os.remove(queryTempFile.name)`) removes it whatever the body did.
Result: (outcome and stderr writes, final file state). -/
def localRunQuery (conn : LocalDBConn) (query : Query)
    (scenarios regions : PyList) (warnEmpty : Bool)
    (tmpName : String) (proc : ProcResult) :
    (Except RunError (Option Frame) × List String) × Option String :=
  let afterCreate : Option String := some ""
  pyTryFinally
    (fun _file =>
      let script := buildLocalScript query scenarios regions
      (localRunQueryBody conn query warnEmpty tmpName proc, some script))
    (fun _ => none)
    afterCreate

/-- The string content of a cell, as used when concatenating the `name` and
`date` columns (both string-typed in the scenario listing). -/
def cellStr : Cell → String
  | .str s => s
  | .int n => toString n

/-- querymi.py lines 309-311 and 463-465: `scen_df[\x27fqName\x27] =
scen_df[\x27name\x27] + " " + scen_df[\x27date\x27]` - append a new column
named `fqName` whose entry in each row is the `name` entry, a space, and the
`date` entry. -/
def appendFqName (f : Frame) : Frame :=
  let ni := f.cols.indexOf "name"
  let di := f.cols.indexOf "date"
  { cols := f.cols ++ ["fqName"],
    rows := f.rows.map (fun r =>
      r ++ [Cell.str (cellStr (r.getD ni default) ++ " "
                        ++ cellStr (r.getD di default))]) }

/-- querymi.py lines 308-312 and 462-466: the post-processing step of
`listScenariosInDB` applied to the parsed scenario table (`None` passes
through unchanged). -/
def listScenariosPost : Option Frame → Option Frame
  | none => none
  | some f => some (appendFqName f)

/-! Helper lemmas -/

lemma String.length_ne_zero_of_ne_empty (s : String) (h : s ≠ "") :
    s.length ≠ 0 := by
  intro hc
  apply h
  cases s with
  | mk data =>
    cases data with
    | nil => rfl
    | cons a as => simp [String.length] at hc

lemma querylist_pylist_ne_unit (l : List String) (h : l ≠ []) :
    _querylist (.pylist l) ≠ "()" := by
  have hl : l.length ≠ 0 := fun hc => h (List.length_eq_zero.1 hc)
  intro hc
  rw [_querylist, if_neg hl] at hc
  have hlen := congrArg String.length hc
  rw [String.length_append, String.length_append] at hlen
  have h2 : ("(\x27" : String).length = 2 := rfl
  have h3 : ("\x27)" : String).length = 2 := rfl
  have h4 : ("()" : String).length = 2 := rfl
  rw [h2, h3, h4] at hlen
  omega

lemma effectiveRegions_none (qr : Option (List String)) :
    effectiveRegions qr .pynone = optToPyList qr := rfl

lemma effectiveRegions_opt_self (qr : Option (List String)) :
    effectiveRegions qr (optToPyList qr) = optToPyList qr := by
  cases qr <;> rfl

lemma mem_dedupFirstAux {α : Type} [DecidableEq α] (l : List α) :
    ∀ (seen : List α) (x : α),
      x ∈ dedupFirstAux seen l ↔ (x ∈ l ∧ x ∉ seen) := by
  induction l with
  | nil => simp [dedupFirstAux]
  | cons k ks ih =>
    intro seen x
    by_cases hk : k ∈ seen
    · rw [dedupFirstAux, if_pos hk, ih]
      constructor
      · rintro ⟨h1, h2⟩
        exact ⟨List.mem_cons_of_mem _ h1, h2⟩
      · rintro ⟨h1, h2⟩
        rcases List.mem_cons.1 h1 with h1 | h1
        · subst h1; exact absurd hk h2
        · exact ⟨h1, h2⟩
    · rw [dedupFirstAux, if_neg hk]
      by_cases hx : x = k
      · subst hx
        simp [List.mem_cons, hk]
      · rw [List.mem_cons]
        constructor
        · rintro (h1 | h1)
          · exact absurd h1 hx
          · rcases (ih _ _).1 h1 with ⟨h2, h3⟩
            refine ⟨List.mem_cons_of_mem _ h2, fun hc => h3 (List.mem_cons_of_mem _ hc)⟩
        · rintro ⟨h1, h2⟩
          rcases List.mem_cons.1 h1 with h1 | h1
          · exact absurd h1 hx
          · refine Or.inr ((ih _ _).2 ⟨h1, ?_⟩)
            intro hc
            rcases List.mem_cons.1 hc with hc | hc
            · exact hx hc
            · exact h2 hc

lemma mem_dedupFirst {α : Type} [DecidableEq α] (l : List α) (x : α) :
    x ∈ dedupFirst l ↔ x ∈ l := by
  rw [dedupFirst, mem_dedupFirstAux]
  simp

/-! Claim theorems -/

/-- C2: for every non-empty list of strings, the list-literal formatter
`_querylist` returns the items single-quoted, comma-joined and
parenthesized; for `None` or an empty list it returns `()`; and a bare
non-empty string is treated as a single-element list, so `"USA"` formats to
`(\x27USA\x27)`. -/
theorem querylist_format_ok (items : List String) (s : String) :
    (items ≠ [] →
      _querylist (.pylist items)
        = "(\x27" ++ String.intercalate "\x27,\x27" items ++ "\x27)")
    ∧ _querylist .pynone = "()"
    ∧ _querylist (.pylist []) = "()"
    ∧ (s ≠ "" → _querylist (.pystr s) = "(\x27" ++ s ++ "\x27)")
    ∧ _querylist (.pystr "USA") = "(\x27USA\x27)" := by
  refine ⟨?_, rfl, rfl, ?_, by decide⟩
  · intro h
    have hl : items.length ≠ 0 := fun hc => h (List.length_eq_zero.1 hc)
    rw [_querylist, if_neg hl]
  · intro h
    rw [_querylist, if_neg (String.length_ne_zero_of_ne_empty s h)]

/-- Witness for C2: the formatter evaluated at the concrete non-empty list
`["USA","China"]` and the concrete non-empty bare string `"EU-15"`. -/
theorem querylist_format_ok_witness :
    _querylist (.pylist ["USA", "China"])
      = "(\x27" ++ String.intercalate "\x27,\x27" ["USA", "China"] ++ "\x27)"
    ∧ _querylist (.pystr "EU-15") = "(\x27" ++ "EU-15" ++ "\x27)" :=
  ⟨(querylist_format_ok ["USA", "China"] "EU-15").1 (by decide),
   (querylist_format_ok ["USA", "China"] "EU-15").2.2.2.1 (by decide)⟩

/-- C10: the empty string passed as the scenarios or regions argument
formats to `()` - it is treated as an empty collection, not promoted to the
single-element literal `(\x27\x27)` - because the emptiness test precedes
the bare-string check. -/
theorem querylist_empty_string_is_empty_literal :
    _querylist (.pystr "") = "()"
    ∧ _querylist (.pystr "") ≠ "(\x27\x27)" := by
  exact ⟨rfl, by decide⟩

/-- C1: in both `runQuery` variants, a `None` regions argument makes the
invocation use the region literal of the query-builtin filter
(`query.regions`), while an explicit empty list formats to `()` (no
filtering) even when the built-in filter is non-empty, and on a non-empty
built-in filter the two literals differ, so the two cases are
distinguishable at every call site. -/
theorem runQuery_regions_override (q : Query) (s : PyList) (l : List String) :
    buildLocalScript q s .pynone = buildLocalScript q s (optToPyList q.regions)
    ∧ buildRemoteBody q s .pynone = buildRemoteBody q s (optToPyList q.regions)
    ∧ formatRegions q.regions PyList.pynone = _querylist (optToPyList q.regions)
    ∧ formatRegions q.regions (PyList.pylist []) = "()"
    ∧ (q.regions = some l → l ≠ [] →
        formatRegions q.regions PyList.pynone
          ≠ formatRegions q.regions (PyList.pylist [])) := by
  refine ⟨?_, ?_, rfl, ?_, ?_⟩
  · simp only [buildLocalScript, formatRegions, effectiveRegions_none,
      effectiveRegions_opt_self]
  · simp only [buildRemoteBody, formatRegions, effectiveRegions_none,
      effectiveRegions_opt_self]
  · rfl
  · intro hq hl
    rw [formatRegions, formatRegions, effectiveRegions_none, hq]
    exact fun hc => querylist_pylist_ne_unit l hl hc

/-- Witness for C1: a query with the concrete non-empty built-in filter
`["USA"]`; passing `None` and passing `[]` produce different region
literals. -/
theorem runQuery_regions_override_witness :
    formatRegions (some ["USA"]) PyList.pynone
      ≠ formatRegions (some ["USA"]) (PyList.pylist []) :=
  (runQuery_regions_override ⟨"<q/>", "t", some ["USA"]⟩ .pynone
    ["USA"]).2.2.2.2 rfl (by decide)

/-- C9: the invocation payloads - the local engine script text and the
remote REST request body - are deterministic functions of the query
definition and the scenario and region arguments: equal inputs give
byte-identical payloads. -/
theorem build_payload_deterministic (q₁ q₂ : Query) (s₁ s₂ r₁ r₂ : PyList)
    (hq : q₁ = q₂) (hs : s₁ = s₂) (hr : r₁ = r₂) :
    buildLocalScript q₁ s₁ r₁ = buildLocalScript q₂ s₂ r₂
    ∧ buildRemoteBody q₁ s₁ r₁ = buildRemoteBody q₂ s₂ r₂ := by
  subst hq
  subst hs
  subst hr
  exact ⟨rfl, rfl⟩

/-- Witness for C9: two invocations of the builders at one concrete input
agree. -/
theorem build_payload_deterministic_witness :
    buildLocalScript ⟨"<q title=\x22a\x22/>", "a", none⟩ .pynone (.pylist ["USA"])
      = buildLocalScript ⟨"<q title=\x22a\x22/>", "a", none⟩ .pynone (.pylist ["USA"])
    ∧ buildRemoteBody ⟨"<q title=\x22a\x22/>", "a", none⟩ .pynone (.pylist ["USA"])
      = buildRemoteBody ⟨"<q title=\x22a\x22/>", "a", none⟩ .pynone (.pylist ["USA"]) :=
  build_payload_deterministic _ _ _ _ _ _ rfl rfl rfl

/-- C7: after `LocalDBConn.runQuery` returns, the scoped temporary script
file no longer exists, on every exit path - normal return, engine failure
(the child process result is universally quantified, including non-zero
exits), and any exception raised inside the body (engine or parse errors
are the `Except.error` outcomes). -/
theorem runQuery_tempfile_removed (conn : LocalDBConn) (q : Query)
    (s r : PyList) (w : Bool) (tmp : String) (proc : ProcResult) :
    (localRunQuery conn q s r w tmp proc).2 = none := rfl

/-- C6 counterexample: for a concrete failing local invocation built by
`LocalDBConn.runQuery` (whose command references the temporary script file
by path), the raised `CalledProcessError` does not carry the original query
body text: the query text occurs in none of the string data of the error -
not in any command element, not in the joined command line, not in the
captured stdout, not in the captured stderr.  (The query text appears only
in the diagnostics logged before re-raising.) -/
theorem runmi_error_lacks_query_counterexample :
    (_runmi
        (buildCmd ⟨"/data/db", "database.basex", "/cp/jars", "4g", true⟩
          "/tmp/tmpab12cd")
        "<emissionsQueryBuilder title=\x22CO2 emissions by region\x22/>"
        ⟨1, "", "BaseX query failed"⟩).1
      = .error ⟨1,
          buildCmd ⟨"/data/db", "database.basex", "/cp/jars", "4g", true⟩
            "/tmp/tmpab12cd",
          "", "BaseX query failed"⟩
    ∧ ((buildCmd ⟨"/data/db", "database.basex", "/cp/jars", "4g", true⟩
          "/tmp/tmpab12cd").all
        (fun c => !containsSub c
          "<emissionsQueryBuilder title=\x22CO2 emissions by region\x22/>"))
        = true
    ∧ containsSub
        (String.intercalate " "
          (buildCmd ⟨"/data/db", "database.basex", "/cp/jars", "4g", true⟩
            "/tmp/tmpab12cd"))
        "<emissionsQueryBuilder title=\x22CO2 emissions by region\x22/>"
        = false
    ∧ containsSub ""
        "<emissionsQueryBuilder title=\x22CO2 emissions by region\x22/>" = false
    ∧ containsSub "BaseX query failed"
        "<emissionsQueryBuilder title=\x22CO2 emissions by region\x22/>"
        = false := by
  decide

/-- C6 amended: a non-zero engine exit makes `_runmi` raise a fatal
`CalledProcessError` carrying the command line, the captured stdout and the
captured standard error (but not the query body); the command line, the
original query body text and the captured stderr are all logged to the
error stream; and the error propagates unchanged through
`LocalDBConn.runQuery` - it is never converted into an empty result. -/
theorem runmi_failure_diagnostics_amended (cmd : List String) (q : String)
    (proc : ProcResult) (h : proc.exitCode ≠ 0) :
    (_runmi cmd q proc).1
      = .error ⟨proc.exitCode, cmd, proc.stdout, proc.stderr⟩
    ∧ ("Command line: \n\t" ++ String.intercalate " " cmd ++ "\n")
        ∈ (_runmi cmd q proc).2
    ∧ ("Query string: \n\t" ++ q ++ "\n") ∈ (_runmi cmd q proc).2
    ∧ proc.stderr ∈ (_runmi cmd q proc).2
    ∧ ∀ (conn : LocalDBConn) (query : Query) (s r : PyList) (w : Bool)
        (tmp : String),
        (localRunQuery conn query s r w tmp proc).1.1
          = .error (.engine ⟨proc.exitCode, buildCmd conn tmp,
              proc.stdout, proc.stderr⟩) := by
  refine ⟨?_, ?_, ?_, ?_, ?_⟩
  · simp [_runmi, if_neg h]
  · simp [_runmi, if_neg h]
  · simp [_runmi, if_neg h]
  · simp [_runmi, if_neg h]
  · intro conn query s r w tmp
    simp [localRunQuery, pyTryFinally, localRunQueryBody, _runmi, if_neg h]

/-- Witness for C6 amended: the error and its fields at a concrete failing
process. -/
theorem runmi_failure_diagnostics_amended_witness :
    (_runmi ["java", "-cp", "cp"] "<q/>" ⟨1, "out", "err"⟩).1
      = .error ⟨1, ["java", "-cp", "cp"], "out", "err"⟩ :=
  (runmi_failure_diagnostics_amended ["java", "-cp", "cp"] "<q/>"
    ⟨1, "out", "err"⟩ (by decide)).1

/-- C5: evaluation of `_parserslt` at the failing input - the empty string
with `warn_empty=True`.  The code writes only the first diagnostic line and
then raises `NameError` (line 118 references the undefined name `query`),
instead of emitting the full diagnostic and returning `None` as the claim
states; with `warn_empty=False` it does return `None` with no diagnostic. -/
theorem parserslt_empty_warn_raises_nameerror :
    _parserslt "" true "Land Allocation" "engine stderr text"
      = (.error .nameError, ["Model interface returned empty string.\n"])
    ∧ _parserslt "" false "Land Allocation" "engine stderr text"
      = (.ok none, []) := by
  decide

/-- C4: evaluation of `_parserslt` at inputs whose column names contain
`value` only as a proper substring.  The substring guard
(`cols.str.contains`) fires but `cols.drop("value")` then raises `KeyError`,
instead of returning the parsed table unmodified as the claim states; a
table with no `value`-containing column at all is returned unmodified. -/
theorem parserslt_substring_guard_keyerror :
    _parserslt "values\n1\n" false "Scenario List" "" = (.error .keyError, [])
    ∧ _parserslt "total value,other\nx,1\n" false "T2" ""
        = (.error .keyError, [])
    ∧ _parserslt "name,date\nref,2020-01-01\n" false "T3" ""
        = (.ok (some ⟨["name", "date"], [[.str "ref", .str "2020-01-01"]]⟩),
           []) := by
  decide

/-- C3 counterexample: the CSV input `value\n1\n2\n` has a column named
`value`, yet the normalizer does not group and sum - `groupby` receives an
empty key-column list and raises `ValueError`, so no aggregated table is
returned. -/
theorem parserslt_value_only_column_counterexample :
    parseCSV "value\n1\n2\n" = some ⟨["value"], [[Cell.int 1], [Cell.int 2]]⟩
    ∧ (_parserslt "value\n1\n2\n" false "T" "").1 = .error .valueError
    ∧ (_parserslt "value\n1\n2\n" false "T" "").1
        ≠ .ok (some (groupAgg ⟨["value"], [[Cell.int 1], [Cell.int 2]]⟩)) := by
  decide

/-- C3 amended: for every CSV input in which a column named `value` is
present and at least one other column remains, the normalizer groups rows
by all remaining columns taken as a composite key and sums `value` within
each group: the result is `groupAgg` of the parsed frame, every output row
is a distinct input key followed by the sum of the `value` cells of the
rows sharing that key, every input key occurs, and in particular parsing
`region,land-allocation,Year,value\nUSA,Forest,2020,5\nUSA,Forest,2020,3\n`
yields exactly one row `USA, Forest, 2020, 8`.  (When `value` is the only
column the grouping call raises instead - see the counterexample.) -/
theorem parserslt_aggregates_value_amended (txt : String) (f : Frame)
    (w : Bool) (t e : String)
    (hp : parseCSV txt = some f) (hv : "value" ∈ f.cols)
    (hk : f.cols.eraseIdx (f.cols.indexOf "value") ≠ []) :
    (_parserslt txt w t e).1 = .ok (some (groupAgg f))
    ∧ (groupAgg f).cols = f.cols.eraseIdx (f.cols.indexOf "value") ++ ["value"]
    ∧ (∀ row ∈ (groupAgg f).rows, ∃ key,
        key ∈ f.rows.map (fun r => r.eraseIdx (f.cols.indexOf "value"))
        ∧ row = key ++ [Cell.int (sumVals (f.cols.indexOf "value") key f.rows)])
    ∧ (∀ r ∈ f.rows,
        (r.eraseIdx (f.cols.indexOf "value"))
          ++ [Cell.int (sumVals (f.cols.indexOf "value")
                (r.eraseIdx (f.cols.indexOf "value")) f.rows)]
          ∈ (groupAgg f).rows)
    ∧ _parserslt
        "region,land-allocation,Year,value\nUSA,Forest,2020,5\nUSA,Forest,2020,3\n"
        false "Land Allocation" ""
        = (.ok (some ⟨["region", "land-allocation", "Year", "value"],
            [[.str "USA", .str "Forest", .int 2020, .int 8]]⟩), []) := by
  have hany : f.cols.any (fun c => containsSub c "value") = true :=
    List.any_eq_true.2 ⟨"value", hv, by decide⟩
  refine ⟨?_, rfl, ?_, ?_, by decide⟩
  · simp only [_parserslt, hp, hany, if_pos hv, if_neg hk, if_true]
  · intro row hrow
    simp only [groupAgg] at hrow
    rcases List.mem_map.1 hrow with ⟨key, hkey, hrow⟩
    exact ⟨key, (mem_dedupFirst _ _).1 hkey, hrow.symm⟩
  · intro r hr
    simp only [groupAgg]
    exact List.mem_map_of_mem _
      ((mem_dedupFirst _ _).2 (List.mem_map_of_mem _ hr))

/-- Witness for C3 amended: the aggregation applied to the concrete land
allocation CSV with a duplicated logical record. -/
theorem parserslt_aggregates_value_amended_witness :
    (_parserslt
        "region,land-allocation,Year,value\nUSA,Forest,2020,5\nUSA,Forest,2020,3\n"
        true "Land Allocation" "").1
      = .ok (some (groupAgg
          ⟨["region", "land-allocation", "Year", "value"],
           [[.str "USA", .str "Forest", .int 2020, .int 5],
            [.str "USA", .str "Forest", .int 2020, .int 3]]⟩)) :=
  (parserslt_aggregates_value_amended
    "region,land-allocation,Year,value\nUSA,Forest,2020,5\nUSA,Forest,2020,3\n"
    ⟨["region", "land-allocation", "Year", "value"],
     [[.str "USA", .str "Forest", .int 2020, .int 5],
      [.str "USA", .str "Forest", .int 2020, .int 3]]⟩
    true "Land Allocation" "" (by decide) (by decide) (by decide)).1

/-- C8 counterexample: applying the `listScenariosInDB` post-processing to
a concrete non-`None` scenario table appends a column named `fqName`, not
`fullyQualifiedName`: no column of the result is named
`fullyQualifiedName`. -/
theorem listScenarios_column_name_counterexample :
    listScenariosPost (some ⟨["name", "date", "version"],
        [[Cell.str "ref", Cell.str "2020-01-01", Cell.str "ver_5.0"]]⟩)
      = some (appendFqName ⟨["name", "date", "version"],
          [[Cell.str "ref", Cell.str "2020-01-01", Cell.str "ver_5.0"]]⟩)
    ∧ (appendFqName ⟨["name", "date", "version"],
        [[Cell.str "ref", Cell.str "2020-01-01", Cell.str "ver_5.0"]]⟩).cols
      = ["name", "date", "version", "fqName"]
    ∧ "fullyQualifiedName" ∉ (appendFqName ⟨["name", "date", "version"],
        [[Cell.str "ref", Cell.str "2020-01-01", Cell.str "ver_5.0"]]⟩).cols := by
  decide

/-- C8 amended: for every non-`None` scenario table, the post-processing of
`listScenariosInDB` appends a derived column named `fqName` whose value in
each row is the `name` entry of that row, a single space, then the `date`
entry of that row; in particular `name="ref"`, `date="2020-01-01"` yields
`fqName = "ref 2020-01-01"`. -/
theorem listScenarios_fqName_amended (f : Frame) :
    (appendFqName f).cols = f.cols ++ ["fqName"]
    ∧ (∀ r ∈ f.rows,
        r ++ [Cell.str (cellStr (r.getD (f.cols.indexOf "name") default)
                ++ " " ++ cellStr (r.getD (f.cols.indexOf "date") default))]
          ∈ (appendFqName f).rows)
    ∧ appendFqName ⟨["name", "date", "version"],
        [[Cell.str "ref", Cell.str "2020-01-01", Cell.str "v"]]⟩
      = ⟨["name", "date", "version", "fqName"],
         [[Cell.str "ref", Cell.str "2020-01-01", Cell.str "v",
           Cell.str "ref 2020-01-01"]]⟩ := by
  refine ⟨rfl, ?_, by decide⟩
  intro r hr
  simp only [appendFqName]
  exact List.mem_map_of_mem _ hr

/-- Witness for C8 amended: the appended row for the concrete scenario
entry `name="ref"`, `date="2020-01-01"`. -/
theorem listScenarios_fqName_amended_witness :
    ([Cell.str "ref", Cell.str "2020-01-01", Cell.str "v"]
      ++ [Cell.str (cellStr (([Cell.str "ref", Cell.str "2020-01-01",
              Cell.str "v"]).getD
              ((["name", "date", "version"] : List String).indexOf "name")
              default)
            ++ " " ++ cellStr (([Cell.str "ref", Cell.str "2020-01-01",
              Cell.str "v"]).getD
              ((["name", "date", "version"] : List String).indexOf "date")
              default))])
      ∈ (appendFqName ⟨["name", "date", "version"],
          [[Cell.str "ref", Cell.str "2020-01-01", Cell.str "v"]]⟩).rows :=
  (listScenarios_fqName_amended ⟨["name", "date", "version"],
      [[Cell.str "ref", Cell.str "2020-01-01", Cell.str "v"]]⟩).2.1
    [Cell.str "ref", Cell.str "2020-01-01", Cell.str "v"] (by decide)
